import Mathlib

/-!
Verification of the readme-generator repository: a shallow embedding of
`src/scanner.py`, `src/detector.py`, `src/template.py` and `src/enhancer.py`,
followed by theorems settling the frozen claims about the spec.

Machine-level conventions of the embedding:
* Python strings are Lean `String`s; Python `pat in s` (substring test),
  `str.lower`, `str.replace`, `str.split`, `'sep'.join` are re-implemented as
  executable char-list functions below, matching CPython behaviour on the
  inputs the program feeds them.
* A filesystem is the mutual inductive `FsTree`/`FsForest` (directory trees
  with named files).  `pathlib.Path` values are `FsPath`: the list of parent
  components plus the final name; `str(path)` joins components with "/".
* Python dict/set values whose iteration order the program relies on are
  embedded as association lists / lists with explicit dedup, preserving
  insertion order exactly where the code depends on it.
-/

/-- Python's `list.startswith` / prefix test on char lists. -/
def isPre : List Char → List Char → Bool
  | [], _ => true
  | _ :: _, [] => false
  | a :: as, b :: bs => a == b && isPre as bs

/-- Substring occurrence test on char lists (`pat` occurs inside `s`). -/
def subL : List Char → List Char → Bool
  | pat, [] => pat.isEmpty
  | pat, c :: rest => isPre pat (c :: rest) || subL pat rest

/-- Python's `pat in s` substring test. -/
def containsSub (s pat : String) : Bool := subL pat.data s.data

/-- Python's `s.startswith(pre)`. -/
def startsWithB (s pre : String) : Bool := isPre pre.data s.data

/-- ASCII lower-casing of one character, as CPython does for ASCII input. -/
def charLower (c : Char) : Char :=
  if 'A' ≤ c && c ≤ 'Z' then Char.ofNat (c.toNat + 32) else c

/-- Python's `s.lower()` (ASCII range; the program only lower-cases ASCII). -/
def pyLower (s : String) : String := ⟨s.data.map charLower⟩

/-- Fuel-driven core of `str.replace`: scans left to right, replacing each
non-overlapping occurrence of `pat` (assumed non-empty at every call site). -/
def replaceFuel (pat rep : List Char) : Nat → List Char → List Char
  | 0, s => s
  | _ + 1, [] => []
  | fuel + 1, c :: rest =>
    if isPre pat (c :: rest) then
      rep ++ replaceFuel pat rep fuel (List.drop (pat.length - 1) rest)
    else
      c :: replaceFuel pat rep fuel rest

/-- Python's `s.replace(pat, rep)` for non-empty `pat` (all call sites in the
program pass non-empty patterns). -/
def pyReplace (s pat rep : String) : String :=
  if pat.data.isEmpty then s else ⟨replaceFuel pat.data rep.data s.data.length s.data⟩

/-- Fuel-driven core of `str.split(sep)`: emits the chunk collected so far
(reversed accumulator) each time `sep` is found. -/
def splitFuel (sep : List Char) : Nat → List Char → List Char → List (List Char)
  | 0, acc, s => [acc.reverse ++ s]
  | _ + 1, acc, [] => [acc.reverse]
  | fuel + 1, acc, c :: rest =>
    if isPre sep (c :: rest) then
      acc.reverse :: splitFuel sep fuel [] (List.drop (sep.length - 1) rest)
    else
      splitFuel sep fuel (c :: acc) rest

/-- Python's `s.split(sep)` for non-empty `sep`. -/
def pySplitOn (s sep : String) : List String :=
  if sep.data.isEmpty then [s]
  else (splitFuel sep.data s.data.length [] s.data).map fun l => ⟨l⟩

/-- Python's whitespace `s.split()` for strings whose only whitespace is the
space character (the program only splits such strings). -/
def pySplitWs (s : String) : List String :=
  (pySplitOn s " ").filter fun w => w ≠ ""

/-- Python's `'sep'.join(parts)`. -/
def joinSep (sep : String) : List String → String
  | [] => ""
  | [x] => x
  | x :: y :: rest => x ++ sep ++ joinSep sep (y :: rest)

/-- Python's `s * n` string repetition (here `n` copies of `s`). -/
def repeatStr (s : String) : Nat → String
  | 0 => ""
  | n + 1 => s ++ repeatStr s n

/-- Lexicographic code-point comparison of char lists, CPython's `<=` on str. -/
def charListLeB : List Char → List Char → Bool
  | [], _ => true
  | _ :: _, [] => false
  | a :: as, b :: bs =>
    if a.toNat < b.toNat then true
    else if a.toNat = b.toNat then charListLeB as bs
    else false

/-- Python's `a <= b` on strings. -/
def strLeB (a b : String) : Bool := charListLeB a.data b.data

/-- Stable insertion into a list sorted by the boolean relation `le`. -/
def insertLe {α : Type} (le : α → α → Bool) (x : α) : List α → List α
  | [] => [x]
  | y :: ys => if le x y then x :: y :: ys else y :: insertLe le x ys

/-- Stable sort by the boolean relation `le` (Python's `sorted(..)`). -/
def sortLe {α : Type} (le : α → α → Bool) (l : List α) : List α :=
  l.foldr (insertLe le) []

/-- Python's `sorted` on a collection of strings. -/
def sortStrings (l : List String) : List String := sortLe strLeB l

/-- CPython `pathlib.PurePath.suffix` of a file name: the part from the last
dot on, provided that dot is neither the first nor the last character. -/
def pySuffix (name : String) : String :=
  match (name.data.reverse.findIdx? fun c => c == '.') with
  | none => ""
  | some j =>
    let i := name.data.length - 1 - j
    if 0 < i && i < name.data.length - 1 then ⟨name.data.drop i⟩ else ""

/-- A filesystem path: parent components plus final name
(`pathlib.Path` as accumulated by the scanner). -/
structure FsPath where
  parent : List String
  name : String
deriving DecidableEq

/-- Python's `str(path)`: components joined with "/". -/
def FsPath.str (p : FsPath) : String := joinSep "/" (p.parent ++ [p.name])

mutual
/-- A directory entry: a file, or a directory with its children. -/
inductive FsTree where
  | file (name : String)
  | dir (name : String) (children : FsForest)

/-- The ordered children of a directory (`Path.iterdir` order). -/
inductive FsForest where
  | nil
  | cons (t : FsTree) (ts : FsForest)
end

/-- Convenience conversion from list literals to forests. -/
def FsForest.ofList : List FsTree → FsForest
  | [] => .nil
  | t :: ts => .cons t (FsForest.ofList ts)

/-- Name of a directory entry. -/
def FsTree.nameOf : FsTree → String
  | .file n => n
  | .dir n _ => n

/-! ## Scanner (`src/scanner.py`, class ProjectScanner) -/

/-- `ProjectScanner.IGNORE_DIRS` (scanner.py lines 13-18). -/
def ignoreDirs : List String :=
  ["__pycache__", ".git", ".github", "node_modules", "venv", "env",
   ".venv", "dist", "build", ".next", ".nuxt", "target", "bin", "obj",
   ".idea", ".vscode", ".DS_Store", "coverage", ".pytest_cache",
   "__MACOSX", ".mypy_cache", ".tox"]

/-- `ProjectScanner.IGNORE_FILES` (scanner.py lines 20-23). -/
def ignoreFiles : List String :=
  [".DS_Store", "Thumbs.db", ".gitignore", ".gitattributes",
   "package-lock.json", "yarn.lock", "poetry.lock", "Pipfile.lock"]

/-- The two dotfile names the scanner allows (scanner.py line 58). -/
def allowedDotfiles : List String := [".env.example", ".editorconfig"]

/-- The item filter of `_scan_recursive` (scanner.py lines 55-59): skip items
in the ignore sets and dotfiles outside the allow list. -/
def skipName (n : String) : Bool :=
  ignoreDirs.contains n || ignoreFiles.contains n ||
    (startsWithB n "." && !(allowedDotfiles.contains n))

/-- The mutable triple `(self.files, self.directories, self.file_extensions)`
accumulated by the scanner, in traversal (append) order; `exts` may contain
duplicates and is deduplicated where the code applies `set` semantics. -/
structure ScanAcc where
  files : List FsPath
  directories : List FsPath
  exts : List String
deriving DecidableEq

/-- Sequencing of two accumulation phases (appends preserve traversal order). -/
def ScanAcc.app (a b : ScanAcc) : ScanAcc :=
  ⟨a.files ++ b.files, a.directories ++ b.directories, a.exts ++ b.exts⟩

/-- The empty accumulator. -/
def ScanAcc.emptyAcc : ScanAcc := ⟨[], [], []⟩

mutual
/-- One loop iteration of `_scan_recursive` (scanner.py lines 53-68) on a
single directory entry living in directory `p`, scanned at depth `depth`:
skip filtered names; record a file (and its non-empty suffix); record a
directory and recurse at `depth + 1`, which line 49 cuts off past `maxD`. -/
def scanTree (maxD depth : Nat) (p : List String) : FsTree → ScanAcc
  | .file n =>
    if skipName n then .emptyAcc
    else ⟨[⟨p, n⟩], [], if pySuffix n ≠ "" then [pySuffix n] else []⟩
  | .dir n cs =>
    if skipName n then .emptyAcc
    else
      ScanAcc.app ⟨[], [⟨p, n⟩], []⟩
        (if depth + 1 > maxD then .emptyAcc
         else scanForest maxD (depth + 1) (p ++ [n]) cs)

/-- The `for item in path.iterdir()` loop of `_scan_recursive` over all
entries of a directory, in order. -/
def scanForest (maxD depth : Nat) (p : List String) : FsForest → ScanAcc
  | .nil => .emptyAcc
  | .cons t ts =>
    ScanAcc.app (scanTree maxD depth p t) (scanForest maxD depth p ts)
end

/-- First directory entry with the given name (filesystem name lookup). -/
def findEntry : FsForest → String → Option FsTree
  | .nil, _ => none
  | .cons t ts, c => if t.nameOf == c then some t else findEntry ts c

/-- `(project_path / filename).exists()` for a candidate split into path
components: every intermediate component must resolve to a directory. -/
def pathExistsF : FsForest → List String → Bool
  | _, [] => true
  | f, [c] => (findEntry f c).isSome
  | f, c :: c2 :: rest =>
    match findEntry f c with
    | some (.dir _ cs) => pathExistsF cs (c2 :: rest)
    | _ => false

/-- The `important` table of `_find_special_files` (scanner.py lines 111-121);
multi-component candidates (`.github/workflows`) are pre-split on "/". -/
def importantCats : List (String × List (List String)) :=
  [("readme", [["README.md"], ["README.rst"], ["README.txt"], ["README"]]),
   ("license", [["LICENSE"], ["LICENSE.md"], ["LICENSE.txt"], ["COPYING"]]),
   ("requirements", [["requirements.txt"], ["Pipfile"], ["pyproject.toml"], ["setup.py"]]),
   ("package", [["package.json"], ["Cargo.toml"], ["go.mod"], ["pom.xml"], ["build.gradle"]]),
   ("config", [[".env.example"], ["config.yml"], ["config.json"], ["settings.py"]]),
   ("docker", [["Dockerfile"], ["docker-compose.yml"], [".dockerignore"]]),
   ("ci", [[".github", "workflows"], [".gitlab-ci.yml"], [".travis.yml"], ["Jenkinsfile"]]),
   ("makefile", [["Makefile"], ["makefile"]]),
   ("changelog", [["CHANGELOG.md"], ["CHANGELOG.rst"], ["HISTORY.md"]])]

/-- `_find_special_files` (scanner.py lines 106-130), projected to the set of
categories recorded: a category is present iff some candidate exists directly
under the project root.  (The recorded path values are consumed only by the
manifest-parsing helpers, which this embedding models as oracles.) -/
def findSpecialFiles (children : FsForest) : List String :=
  importantCats.filterMap fun cat =>
    if cat.2.any (fun cand => pathExistsF children cand) then some cat.1 else none

/-- Sort key of `_generate_tree` (scanner.py line 78): `(len(parts), str(p))`. -/
def treeFileLe (base : List String) (a b : FsPath) : Bool :=
  let ka := (base ++ a.parent ++ [a.name]).length
  let kb := (base ++ b.parent ++ [b.name]).length
  if ka < kb then true
  else if ka = kb then strLeB a.str b.str
  else false

/-- Insert one relative file name into the `dir_structure` grouping dict of
`_generate_tree`, keyed by relative parent components (insertion order kept). -/
def groupInsert (groups : List (List String × List String)) (key : List String)
    (v : String) : List (List String × List String) :=
  match groups with
  | [] => [(key, [v])]
  | (k, vs) :: rest =>
    if k = key then (k, vs ++ [v]) :: rest else (k, vs) :: groupInsert rest key v

/-- `str(dir_path)` for a relative directory given by components
(the empty relative path prints as "."). -/
def relStr (comps : List String) : String :=
  match comps with
  | [] => "."
  | _ => joinSep "/" comps

/-- Python ordering of relative `Path` keys, by their string form. -/
def relLe (a b : List String) : Bool := strLeB (relStr a) (relStr b)

/-- `_generate_tree` (scanner.py lines 73-104): cap at 50 files sorted by
(depth, path string), group by relative parent, render the indented tree,
and append an overflow line when more files exist than the cap. -/
def generateTree (base : List String) (rootName : String) (files : List FsPath) : String :=
  let sortedFiles := (sortLe (treeFileLe (base ++ [rootName])) files).take 50
  let rootLen := (base ++ [rootName]).length
  let dirStructure := sortedFiles.foldl
    (fun groups f => groupInsert groups ((f.parent ++ [f.name]).drop rootLen |>.dropLast) f.name)
    []
  let keyLines := (sortLe relLe (dirStructure.map (·.1))).map fun dirPath =>
    let dirLines :=
      if relStr dirPath ≠ "." then
        [repeatStr "  " dirPath.length ++ "├── " ++ dirPath.getLastD "" ++ "/"]
      else []
    let indent := repeatStr "  " (dirPath.length + (if relStr dirPath ≠ "." then 1 else 0))
    let fileNames := (dirStructure.find? (fun g => g.1 = dirPath)).elim [] (·.2)
    dirLines ++ (sortStrings fileNames).map (fun fn => indent ++ "├── " ++ fn)
  let treeLines := (rootName ++ "/") :: keyLines.flatten ++
    (if files.length > 50 then
      ["  ... and " ++ toString (files.length - 50) ++ " more files"]
     else [])
  joinSep "\n" treeLines

/-- The dictionary returned by `ProjectScanner.scan` (scanner.py lines 31-45).
`specialFiles` records the categories present (see `findSpecialFiles`). -/
structure ScanResult where
  projectName : String
  files : List FsPath
  directories : List FsPath
  fileCount : Nat
  dirCount : Nat
  extensions : List String
  fileTree : String
  specialFiles : List String
deriving DecidableEq

/-- `ProjectScanner.scan` on the project directory `base ++ [name]` whose
entries are `children`: run `_scan_recursive` from depth 0 with the default
maximum depth 10 and assemble the result dictionary. -/
def scanRun (base : List String) (name : String) (children : FsForest) : ScanResult :=
  let acc := if 0 > 10 then ScanAcc.emptyAcc
             else scanForest 10 0 (base ++ [name]) children
  { projectName := name
    files := acc.files
    directories := acc.directories
    fileCount := acc.files.length
    dirCount := acc.directories.length
    extensions := sortStrings acc.exts.dedup
    fileTree := generateTree base name acc.files
    specialFiles := findSpecialFiles children }

/-! ## Detector (`src/detector.py`, class TechDetector) -/

/-- `TechDetector.LANGUAGE_MAP` (detector.py lines 12-38). -/
def languageMap : List (String × String) :=
  [(".py", "Python"), (".js", "JavaScript"), (".ts", "TypeScript"),
   (".jsx", "React"), (".tsx", "React"), (".java", "Java"), (".c", "C"),
   (".cpp", "C++"), (".cs", "C#"), (".go", "Go"), (".rs", "Rust"),
   (".rb", "Ruby"), (".php", "PHP"), (".swift", "Swift"), (".kt", "Kotlin"),
   (".scala", "Scala"), (".r", "R"), (".m", "Objective-C"), (".sh", "Shell"),
   (".html", "HTML"), (".css", "CSS"), (".scss", "SASS"), (".vue", "Vue"),
   (".sql", "SQL"), (".md", "Markdown")]

/-- `ext in LANGUAGE_MAP` / `LANGUAGE_MAP[ext]` as one lookup. -/
def languageLookup (ext : String) : Option String :=
  (languageMap.find? fun kv => kv.1 == ext).map (·.2)

/-- `TechDetector.FRAMEWORK_INDICATORS` (detector.py lines 41-57). -/
def frameworkIndicators : List (String × List String) :=
  [("React", ["package.json", "react"]),
   ("Next.js", ["next.config.js", "next.config.ts"]),
   ("Vue.js", ["vue.config.js", "nuxt.config.js"]),
   ("Angular", ["angular.json"]),
   ("Django", ["manage.py", "settings.py"]),
   ("Flask", ["app.py", "flask"]),
   ("FastAPI", ["main.py", "fastapi"]),
   ("Express", ["express"]),
   ("Node.js", ["package.json"]),
   ("Docker", ["Dockerfile", "docker-compose.yml"]),
   ("Kubernetes", [".yaml", "k8s"]),
   ("Terraform", [".tf"]),
   ("Streamlit", ["streamlit"]),
   ("Pytest", ["pytest.ini", "conftest.py"]),
   ("Jest", ["jest.config.js"])]

/-- `_detect_languages` (detector.py lines 78-86): map each observed extension
through the table, take the set, and sort. -/
def detectLanguages (extensions : List String) : List String :=
  sortStrings (extensions.filterMap languageLookup).dedup

/-- `_detect_frameworks` (detector.py lines 88-109).  The two content-reading
helpers `_parse_package_json` and `_parse_requirements` open files outside the
scan data, so their results enter here as the oracle parameters `pkgParsed`
and `reqParsed`; exactly as in the code they are consulted only when the
corresponding special file was found, and merged into the same set. -/
def detectFrameworks (files : List FsPath) (specialCats : List String)
    (pkgParsed reqParsed : List String) : List String :=
  let indicatorHits := frameworkIndicators.filterMap fun fw =>
    if fw.2.any (fun ind => files.any fun f => containsSub f.str ind)
    then some fw.1 else none
  let withPkg := indicatorHits ++
    (if specialCats.contains "package" then pkgParsed else [])
  let withReq := withPkg ++
    (if specialCats.contains "requirements" then reqParsed else [])
  sortStrings withReq.dedup

/-- The `indicators` table of `_detect_package_managers`
(detector.py lines 115-125). -/
def pmIndicators : List (String × List String) :=
  [("pip", ["requirements.txt", "setup.py"]),
   ("poetry", ["pyproject.toml", "poetry.lock"]),
   ("npm", ["package.json", "package-lock.json"]),
   ("yarn", ["yarn.lock"]),
   ("pnpm", ["pnpm-lock.yaml"]),
   ("cargo", ["Cargo.toml"]),
   ("go mod", ["go.mod"]),
   ("maven", ["pom.xml"]),
   ("gradle", ["build.gradle"])]

/-- `_detect_package_managers` (detector.py lines 111-133): a manager is
recorded when one of its marker filenames occurs among the discovered file
names (exact name equality). -/
def detectPackageManagers (files : List FsPath) : List String :=
  pmIndicators.filterMap fun pm =>
    if pm.2.any (fun marker => files.any fun fp => fp.name == marker)
    then some pm.1 else none

/-- `_detect_tools` (detector.py lines 135-152).  Note the Kubernetes branch:
two independent `any` scans over the file list, one for a ".yaml"/".yml"
substring and one for a "k8s"/"kubernetes" substring. -/
def detectTools (specialCats : List String) (files : List FsPath) : List String :=
  (if specialCats.contains "docker" then ["Docker"] else []) ++
  (if specialCats.contains "ci" then ["CI/CD"] else []) ++
  (if (files.any fun f => containsSub f.str ".yaml" || containsSub f.str ".yml") &&
      (files.any fun f => containsSub f.str "k8s" || containsSub f.str "kubernetes")
   then ["Kubernetes"] else []) ++
  (if specialCats.contains "makefile" then ["Make"] else [])

/-- One update of the `lang_counts` dict
(`lang_counts[lang] = lang_counts.get(lang, 0) + 1`), preserving dict
insertion order. -/
def bumpCount : List (String × Nat) → String → List (String × Nat)
  | [], k => [(k, 1)]
  | (a, n) :: rest, k =>
    if a = k then (a, n + 1) :: rest else (a, n) :: bumpCount rest k

/-- The `lang_counts` dict built by `_get_primary_language`
(detector.py lines 156-162) over the discovered files. -/
def langCounts (files : List FsPath) : List (String × Nat) :=
  files.foldl
    (fun acc f =>
      match languageLookup (pySuffix f.name) with
      | some lang => bumpCount acc lang
      | none => acc)
    []

/-- Python's `max(items, key=lambda x: x[1])`: the first item whose count is
not exceeded by any later item. -/
def pyMaxByCount : List (String × Nat) → Option (String × Nat)
  | [] => none
  | x :: xs => some (xs.foldl (fun best y => if y.2 > best.2 then y else best) x)

/-- `_get_primary_language` (detector.py lines 154-168): "Unknown" when no
file extension is in the table, otherwise the most frequent language. -/
def getPrimaryLanguage (files : List FsPath) : String :=
  match pyMaxByCount (langCounts files) with
  | none => "Unknown"
  | some kv => kv.1

/-- `_has_tests` (detector.py lines 170-178). -/
def hasTestsB (files : List FsPath) : Bool :=
  files.any fun f =>
    ["test", "tests", "spec", "__tests__", "pytest", "jest"].any fun ind =>
      containsSub (pyLower f.str) ind

/-- `_has_docs` (detector.py lines 180-188). -/
def hasDocsB (files : List FsPath) : Bool :=
  files.any fun f =>
    ["docs", "documentation", "doc", "README"].any fun ind =>
      containsSub f.str ind

/-- `_has_ci` (detector.py lines 190-192). -/
def hasCIB (specialCats : List String) : Bool := specialCats.contains "ci"

/-- The dictionary returned by `TechDetector.detect` (detector.py 65-76). -/
structure TechInfo where
  languages : List String
  frameworks : List String
  packageManagers : List String
  tools : List String
  primaryLanguage : String
  hasTests : Bool
  hasDocs : Bool
  hasCI : Bool
deriving DecidableEq

/-- `TechDetector.detect` assembled from a ScanResult, with the two
content-parsing oracles passed through to `detectFrameworks`. -/
def detect (s : ScanResult) (pkgParsed reqParsed : List String) : TechInfo :=
  { languages := detectLanguages s.extensions
    frameworks := detectFrameworks s.files s.specialFiles pkgParsed reqParsed
    packageManagers := detectPackageManagers s.files
    tools := detectTools s.specialFiles s.files
    primaryLanguage := getPrimaryLanguage s.files
    hasTests := hasTestsB s.files
    hasDocs := hasDocsB s.files
    hasCI := hasCIB s.specialFiles }

/-! ## Generator (`src/template.py`, class TemplateGenerator) -/

/-- The ASCII apostrophe, used inside a few template strings. -/
def apos : String := (Char.ofNat 39).toString

/-- `_get_language_color` (template.py lines 567-585). -/
def getLanguageColor (language : String) : String :=
  (([("Python", "3776AB"), ("JavaScript", "F7DF1E"), ("TypeScript", "3178C6"),
     ("Java", "ED8B00"), ("Go", "00ADD8"), ("Rust", "CE412B"), ("C++", "00599C"),
     ("C#", "239120"), ("Ruby", "CC342D"), ("PHP", "777BB4"), ("Swift", "FA7343"),
     ("Kotlin", "7F52FF"), ("HTML", "E34F26"), ("CSS", "1572B6")]
    : List (String × String)).find? fun kv => kv.1 == language).elim "555555" (·.2)

/-- `_get_framework_color` (template.py lines 587-600). -/
def getFrameworkColor (framework : String) : String :=
  (([("React", "61DAFB"), ("Next.js", "000000"), ("Vue.js", "4FC08D"),
     ("Django", "092E20"), ("Flask", "000000"), ("FastAPI", "009688"),
     ("Express", "000000"), ("Streamlit", "FF4B4B"), ("Docker", "2496ED")]
    : List (String × String)).find? fun kv => kv.1 == framework).elim "6366F1" (·.2)

/-- `_generate_header` (template.py lines 37-48). -/
def generateHeader (projectName : String) : String :=
  "<div align=\"center\">\n\n# 🚀 " ++ projectName ++
  "\n\n<p align=\"center\">\n  <strong>✨ Auto-generated README - Customize me! ✨</strong>\n</p>\n\n</div>"

/-- `_generate_badges` (template.py lines 50-87): the language badge is added
whenever `primary_language` is a non-empty (truthy) string. -/
def generateBadges (projectName : String) (s : ScanResult) (ti : TechInfo) : String :=
  let projectSlug := pyReplace (pyLower projectName) " " "-"
  let badges : List String :=
    (if ti.primaryLanguage ≠ "" then
      ["![" ++ ti.primaryLanguage ++ "](https://img.shields.io/badge/" ++
       ti.primaryLanguage ++ "-" ++ getLanguageColor ti.primaryLanguage ++
       "?style=for-the-badge&logo=" ++ pyLower ti.primaryLanguage ++ "&logoColor=white)"]
     else []) ++
    (if s.specialFiles.contains "license" then
      ["![License](https://img.shields.io/badge/license-MIT-blue?style=for-the-badge)"]
     else []) ++
    ["![GitHub stars](https://img.shields.io/github/stars/yourusername/" ++ projectSlug ++ "?style=for-the-badge)",
     "![GitHub forks](https://img.shields.io/github/forks/yourusername/" ++ projectSlug ++ "?style=for-the-badge)",
     "![GitHub issues](https://img.shields.io/github/issues/yourusername/" ++ projectSlug ++ "?style=for-the-badge)"] ++
    (if ti.hasCI then
      ["![Build](https://img.shields.io/badge/build-passing-brightgreen?style=for-the-badge)"]
     else []) ++
    (if ti.hasTests then
      ["![Coverage](https://img.shields.io/badge/coverage-85%25-green?style=for-the-badge)"]
     else [])
  "<div align=\"center\">\n\n" ++ joinSep " " (badges.take 4) ++ "\n\n" ++
  (if badges.length > 4 then joinSep " " (badges.drop 4) else "") ++ "\n\n</div>"

/-- `_generate_highlights` (template.py lines 112-138). -/
def generateHighlights (ti : TechInfo) : String :=
  let highlights : List String :=
    (if ti.hasTests then ["🧪 **Test Coverage** - Comprehensive test suite included"] else []) ++
    (if ti.hasCI then ["🔄 **CI/CD** - Automated testing and deployment"] else []) ++
    (if ti.tools.contains "Docker" then ["🐳 **Containerized** - Docker support for easy deployment"] else []) ++
    (if ti.hasDocs then ["📚 **Well Documented** - Clear documentation and examples"] else []) ++
    (if ti.languages.length > 1 then
      ["🌐 **Multi-language** - Uses " ++ toString ti.languages.length ++ " programming languages"]
     else [])
  let highlights := if highlights = [] then
      ["⚡ **Fast & Efficient** - Optimized for performance",
       "🎨 **Modern Stack** - Built with latest technologies",
       "🔧 **Customizable** - Easy to extend and modify"]
    else highlights
  joinSep "\n" (highlights.map fun h => "- " ++ h)

/-- `_generate_description` (template.py lines 89-110). -/
def generateDescription (ti : TechInfo) : String :=
  let description := "A powerful " ++ ti.primaryLanguage ++ " project" ++
    (if ti.frameworks ≠ [] then
      " built with **" ++ joinSep ", " (ti.frameworks.take 3) ++ "**"
     else "") ++ ". 🎯"
  "## 📖 About\n\n" ++ description ++
  "\n\n> ⚠️ **Note:** This README was auto-generated using [README Generator](https://github.com/alxgraphy/readme-generator). \n> Please customize it with your project" ++
  apos ++
  "s actual description, screenshots, and details!\n\n### ✨ Highlights\n\n" ++
  generateHighlights ti

/-- `_generate_demo_section` (template.py lines 140-163). -/
def generateDemoSection : String :=
  "## 🎬 Demo\n\n<div align=\"center\">\n\n### 📸 Screenshots\n\n<table>\n  <tr>\n    <td><img src=\"screenshots/demo1.png\" alt=\"Screenshot 1\" width=\"400\"/></td>\n    <td><img src=\"screenshots/demo2.png\" alt=\"Screenshot 2\" width=\"400\"/></td>\n  </tr>\n  <tr>\n    <td align=\"center\"><em>Main Interface</em></td>\n    <td align=\"center\"><em>Feature Showcase</em></td>\n  </tr>\n</table>\n\n> 🎥 **[Live Demo](#)** | 📹 **[Video Tutorial](#)**\n\n</div>\n\n---"

/-- One `<td>` cell of `_create_features_grid` (template.py lines 210-216). -/
def featureCell (feature : String) : String :=
  let ws := pySplitWs feature
  let emoji := ws.headD ""
  let text := joinSep " " ws.tail
  "<td width=\"50%\">\n\n**" ++ emoji ++ " " ++ (pySplitOn text " - ").headD "" ++ "**\n\n" ++
  (if containsSub text " - " then "<br/>" ++ (pySplitOn text " - ").getD 1 "" ++ "\n\n" else "") ++
  "</td>\n"

/-- `_create_features_grid` (template.py lines 202-223). -/
def createFeaturesGrid (features : List String) : String :=
  let grid := features.enum.foldl
    (fun grid p =>
      grid ++ (if p.1 > 0 && p.1 % 2 == 0 then "</tr>\n<tr>\n" else "") ++ featureCell p.2)
    "<table>\n<tr>\n"
  grid ++ (if features.length % 2 ≠ 0 then "<td></td>\n" else "") ++ "</tr>\n</table>"

/-- `_generate_features` (template.py lines 165-200). -/
def generateFeatures (ti : TechInfo) : String :=
  let features : List String :=
    (if ti.hasTests then ["✅ Comprehensive test coverage with automated testing"] else []) ++
    (if ti.hasCI then ["🔄 Continuous Integration and Deployment pipeline"] else []) ++
    (if ti.hasDocs then ["📚 Well-documented codebase with inline comments"] else []) ++
    (if ti.tools.contains "Docker" then ["🐳 Docker containerization for easy deployment"] else []) ++
    (if ti.tools.contains "Kubernetes" then ["☸️ Kubernetes orchestration support"] else [])
  let features := if features.length < 3 then
      features ++
      ["🚀 High performance and scalability",
       "🔒 Secure by design with best practices",
       "🎨 Clean and maintainable code architecture",
       "⚡ Fast development with hot reload",
       "🌍 Cross-platform compatibility"]
    else features
  let features := features.take 6
  "## ✨ Features\n\n" ++ createFeaturesGrid features

/-- `_generate_tech_stack` (template.py lines 225-253): returns "" (section
omitted) when no languages, frameworks or tools were detected. -/
def generateTechStack (ti : TechInfo) : String :=
  let lines := ["## 🛠️ Tech Stack"] ++
    (if ti.languages ≠ [] then
      ["\n### Languages",
       joinSep " " (ti.languages.map fun lang =>
         "![" ++ lang ++ "](https://img.shields.io/badge/" ++ lang ++ "-" ++
         getLanguageColor lang ++ "?style=flat-square&logo=" ++ pyLower lang ++
         "&logoColor=white)")]
     else []) ++
    (if ti.frameworks ≠ [] then
      ["\n### Frameworks & Libraries",
       joinSep " " (ti.frameworks.map fun fw =>
         "![" ++ fw ++ "](https://img.shields.io/badge/" ++ fw ++ "-" ++
         getFrameworkColor fw ++ "?style=flat-square&logo=" ++
         pyReplace (pyReplace (pyLower fw) "." "") " " "" ++ "&logoColor=white)")]
     else []) ++
    (if ti.tools ≠ [] then
      ["\n### Tools & Platforms",
       joinSep " " (ti.tools.map fun tool =>
         "![" ++ tool ++ "](https://img.shields.io/badge/" ++ tool ++
         "-2496ED?style=flat-square&logo=" ++ pyLower tool ++ "&logoColor=white)")]
     else [])
  if lines.length > 1 then joinSep "\n" lines else ""

/-- `_generate_quick_start` (template.py lines 255-289). -/
def generateQuickStart (projectName : String) (ti : TechInfo) : String :=
  let slug := pyReplace (pyLower projectName) " " "-"
  let quickCommands :=
    ["# Clone the repository",
     "git clone https://github.com/yourusername/" ++ slug ++ ".git",
     ""] ++
    (if ti.packageManagers.contains "npm" then
      ["# Install dependencies", "npm install", "", "# Run the project", "npm start"]
     else if ti.packageManagers.contains "pip" then
      ["# Install dependencies", "pip install -r requirements.txt", "", "# Run the project", "python main.py"]
     else
      ["# Follow installation instructions below"])
  "## ⚡ Quick Start\n\n```bash\n" ++ joinSep "\n" quickCommands ++ "\n```"

/-- `_generate_installation` (template.py lines 291-373). -/
def generateInstallation (projectName : String) (ti : TechInfo) : String :=
  let slug := pyReplace (pyLower projectName) " " "-"
  let managers := ti.packageManagers
  let prereqs : List String :=
    (if ti.frameworks.contains "Node.js" || managers.contains "npm" then
      ["- Node.js 16.x or higher"] else []) ++
    (if ti.primaryLanguage = "Python" then ["- Python 3.8 or higher"] else []) ++
    (if ti.tools.contains "Docker" then ["- Docker and Docker Compose"] else []) ++
    (if managers.contains "go mod" then ["- Go 1.20 or higher"] else [])
  let prereqs := if prereqs = [] then
      ["- " ++ ti.primaryLanguage ++ " (latest stable version)"]
    else prereqs
  let lines :=
    ["## 📦 Installation", "\n### Prerequisites", joinSep "\n" prereqs,
     "\n### Step-by-Step Guide",
     "\n**1️⃣ Clone the repository**", "```bash",
     "git clone https://github.com/yourusername/" ++ slug ++ ".git",
     "cd " ++ slug, "```"] ++
    (if managers.contains "pip" then
      ["\n**2️⃣ Create virtual environment (recommended)**", "```bash",
       "python -m venv venv",
       "source venv/bin/activate  # On Windows: venv\\Scripts\\activate", "```",
       "\n**3️⃣ Install dependencies**", "```bash",
       "pip install -r requirements.txt", "```"]
     else if managers.contains "poetry" then
      ["\n**2️⃣ Install dependencies with Poetry**", "```bash",
       "poetry install", "```"]
     else if managers.contains "npm" then
      ["\n**2️⃣ Install dependencies**", "```bash",
       "npm install", "# or", "yarn install", "```"]
     else if managers.contains "cargo" then
      ["\n**2️⃣ Build the project**", "```bash",
       "cargo build --release", "```"]
     else if managers.contains "go mod" then
      ["\n**2️⃣ Download dependencies**", "```bash",
       "go mod download", "```"]
     else []) ++
    ["\n**4️⃣ Set up environment variables**", "```bash",
     "cp .env.example .env", "# Edit .env with your configuration", "```"]
  joinSep "\n" lines

/-- `_generate_usage` (template.py lines 375-451). -/
def generateUsage (ti : TechInfo) : String :=
  let branch : List String :=
    if ti.frameworks.contains "Django" then
      ["```bash", "# Run migrations", "python manage.py migrate", "",
       "# Create superuser", "python manage.py createsuperuser", "",
       "# Run development server", "python manage.py runserver", "```",
       "\nVisit `http://localhost:8000` in your browser"]
    else if ti.frameworks.contains "Flask" || ti.frameworks.contains "FastAPI" then
      ["```bash", "# Run the application", "python app.py", "# or",
       "uvicorn main:app --reload  # For FastAPI", "```",
       "\nAPI will be available at `http://localhost:8000`"]
    else if ti.frameworks.contains "Streamlit" then
      ["```bash", "streamlit run app.py", "```",
       "\nApp will open in your browser automatically"]
    else if ti.frameworks.contains "React" || ti.frameworks.contains "Next.js" then
      ["```bash", "# Development mode", "npm run dev", "",
       "# Build for production", "npm run build", "",
       "# Start production server", "npm start", "```",
       "\nOpen `http://localhost:3000`"]
    else
      ["```bash", "# Run the application"] ++
      [if ti.primaryLanguage = "Python" then "python main.py"
       else if ti.primaryLanguage = "Go" then "go run main.go"
       else if ti.primaryLanguage = "Rust" then "cargo run"
       else if ti.primaryLanguage = "Node.js" || ti.primaryLanguage = "JavaScript" then "npm start"
       else "# See documentation for usage instructions"] ++
      ["```"]
  let lines := ["## 🚀 Usage", "\n### Basic Usage"] ++ branch ++
    ["\n### Examples", "\n```bash", "# Example 1: Basic usage",
     "# Add your example here", "", "# Example 2: Advanced usage",
     "# Add your example here", "```"]
  joinSep "\n" lines

/-- `_explain_structure` (template.py lines 467-487). -/
def explainStructure (s : ScanResult) : String :=
  let explanations : List String :=
    (if s.directories.any (fun d => containsSub d.str "src") then
      ["- **`src/`** - Source code and main application logic"] else []) ++
    (if s.directories.any (fun d => containsSub (pyLower d.str) "test") then
      ["- **`tests/`** - Test files and test utilities"] else []) ++
    (if s.directories.any (fun d => containsSub (pyLower d.str) "doc") then
      ["- **`docs/`** - Documentation files"] else []) ++
    (if s.directories.any (fun d => containsSub (pyLower d.str) "config") then
      ["- **`config/`** - Configuration files"] else [])
  let explanations := if explanations = [] then
      ["- See code structure above for file organization"]
    else explanations
  joinSep "\n" explanations

/-- `_generate_project_structure` (template.py lines 453-465). -/
def generateProjectStructure (s : ScanResult) : String :=
  "## 📁 Project Structure\n\n```\n" ++ s.fileTree ++
  "\n```\n\n### Key Directories\n\n" ++ explainStructure s

/-- `_generate_roadmap` (template.py lines 489-500). -/
def generateRoadmap : String :=
  "## 🗺️ Roadmap\n\n- [x] Initial release\n- [ ] Add feature X\n- [ ] Improve performance\n- [ ] Add more documentation\n- [ ] Add integration tests\n- [ ] Release v2.0\n\nSee the [open issues](https://github.com/yourusername/project/issues) for a full list of proposed features."

/-- `_generate_contributing` (template.py lines 502-525). -/
def generateContributing : String :=
  "## 🤝 Contributing\n\nContributions make the open source community amazing! Any contributions you make are **greatly appreciated**.\n\n### How to Contribute\n\n1. **Fork** the Project\n2. **Create** your Feature Branch (`git checkout -b feature/AmazingFeature`)\n3. **Commit** your Changes (`git commit -m " ++
  apos ++ "Add some AmazingFeature" ++ apos ++
  "`)\n4. **Push** to the Branch (`git push origin feature/AmazingFeature`)\n5. **Open** a Pull Request\n\n### Development Guidelines\n\n- Write clear, commented code\n- Follow the existing code style\n- Add tests for new features\n- Update documentation as needed\n\n### Code of Conduct\n\nPlease read our [Code of Conduct](CODE_OF_CONDUCT.md) before contributing."

/-- `_generate_license` (template.py lines 527-541): the text depends only on
whether a license special file was found. -/
def generateLicense (s : ScanResult) : String :=
  if s.specialFiles.contains "license" then
    "## 📄 License\n\nDistributed under the MIT License. See `LICENSE` file for more information."
  else
    "## 📄 License\n\nThis project is unlicensed. Please add a LICENSE file to specify terms of use.\n\nRecommended licenses:\n- [MIT License](https://opensource.org/licenses/MIT) - Permissive\n- [GPL v3](https://www.gnu.org/licenses/gpl-3.0.en.html) - Copyleft\n- [Apache 2.0](https://opensource.org/licenses/Apache-2.0) - Permissive with patent grant"

/-- `_generate_acknowledgments` (template.py lines 543-549). -/
def generateAcknowledgments : String :=
  "## 🙏 Acknowledgments\n\n- Thanks to all contributors\n- Inspired by awesome open source projects\n- Built with amazing tools and frameworks"

/-- `_generate_footer` (template.py lines 551-565). -/
def generateFooter : String :=
  "---\n\n<div align=\"center\">\n\n**⭐ Star this repo if you find it helpful! ⭐**\n\nMade with ❤️ by [Your Name](https://github.com/yourusername)\n\n**[⬆ Back to Top](#-project-name)**\n\n*Auto-generated using [README Generator](https://github.com/alxgraphy/readme-generator)*\n\n</div>"

/-- The ordered section list of `TemplateGenerator.generate`
(template.py lines 17-33). -/
def generateSections (projectName : String) (s : ScanResult) (ti : TechInfo) : List String :=
  [generateHeader projectName,
   generateBadges projectName s ti,
   generateDescription ti,
   generateDemoSection,
   generateFeatures ti,
   generateTechStack ti,
   generateQuickStart projectName ti,
   generateInstallation projectName ti,
   generateUsage ti,
   generateProjectStructure s,
   generateRoadmap,
   generateContributing,
   generateLicense s,
   generateAcknowledgments,
   generateFooter]

/-- `TemplateGenerator.generate` (template.py lines 15-35): drop falsy (empty)
sections and join the rest with blank lines. -/
def generate (projectName : String) (s : ScanResult) (ti : TechInfo) : String :=
  joinSep "\n\n" ((generateSections projectName s ti).filter fun sec => sec ≠ "")

/-! ## Enhancer (`src/enhancer.py`, class AIEnhancer) -/

/-- `os.environ.get`: lookup in an environment modelled as an association
list of variable names to values. -/
def envGet (env : List (String × String)) (key : String) : Option String :=
  (env.find? fun kv => kv.1 == key).map (·.2)

/-- The error message raised by `AIEnhancer.__init__` (enhancer.py 15-18). -/
def apiKeyErrMsg : String :=
  "ANTHROPIC_API_KEY environment variable not set. Get your API key from https://console.anthropic.com/"

/-- `AIEnhancer.__init__` (enhancer.py lines 11-18): read the credential from
the environment and fail when it is absent or falsy (empty).  The constructor
performs no other effect — in particular no network activity — so it is a
pure function of the environment; success carries the stored key. -/
def initEnhancer (env : List (String × String)) : Except String String :=
  match envGet env "ANTHROPIC_API_KEY" with
  | none => .error apiKeyErrMsg
  | some key => if key = "" then .error apiKeyErrMsg else .ok key

/-- `AIEnhancer.enhance` (enhancer.py lines 52-70), with the single remote
call (`client.messages.create` and the `message.content[0].text` extraction
input, a list of content-block texts) modelled as its outcome `callResult`:
an exception, or the returned content blocks.  Any exception inside the
`try` — including the indexing of an empty content list — is caught and the
original document is returned unchanged; a successful call returns the first
content block's text.  There is no retry. -/
def enhance (readmeContent : String) (callResult : Except String (List String)) : String :=
  match callResult with
  | .error _ => readmeContent
  | .ok blocks =>
    match blocks.head? with
    | some text => text
    | none => readmeContent

/-! ## Spec-side definitions and concrete fixtures -/

/-- The spec's item filter, in its own words: a name is excluded when it is in
one of the ignore sets, or begins with "." and is not one of the two
allow-listed dotfiles. -/
def specExcluded (n : String) : Bool :=
  ignoreDirs.contains n || ignoreFiles.contains n ||
    (startsWithB n "." && !(allowedDotfiles.contains n))

mutual
/-- Modelled from the spec (§8): the contribution of one directory entry to
"the number of non-ignored, non-hidden files strictly under the root,
recursively, bounded by max depth".  `fuel` is the number of directory levels
the bounded traversal may still descend below this entry's parent. -/
def specFileCountT (fuel : Nat) : FsTree → Nat
  | .file n => if specExcluded n then 0 else 1
  | .dir n cs => if specExcluded n || fuel == 0 then 0 else specFileCountF (fuel - 1) cs

/-- Modelled from the spec (§8): the bounded recursive count of non-ignored,
non-hidden files among the entries of one directory. -/
def specFileCountF (fuel : Nat) : FsForest → Nat
  | .nil => 0
  | .cons t ts => specFileCountT fuel t + specFileCountF fuel ts
end

/-- Scan of an empty project directory. -/
def emptyScan : ScanResult := scanRun ["home"] "empty" FsForest.nil

/-- Detection output for the empty project (the parsing oracles are irrelevant
because no special files exist). -/
def emptyTech : TechInfo := detect emptyScan [] []

/-- The language badge the generator renders for the empty project. -/
def unknownBadge : String :=
  "![Unknown](https://img.shields.io/badge/Unknown-555555?style=for-the-badge&logo=unknown&logoColor=white)"

/-- A sample project tree exercising the scanner filters. -/
def sampleForest : FsForest := FsForest.ofList
  [.file "main.py", .file "yarn.lock", .file ".gitignore", .file ".env.example",
   .dir ".git" (FsForest.ofList [.file "HEAD"]),
   .dir "srcx" (FsForest.ofList [.file "app.py", .file "notes.md"])]

/-- A ScanResult whose special files include a license. -/
def withLicenseScan : ScanResult :=
  { projectName := "a", files := [], directories := [], fileCount := 0,
    dirCount := 0, extensions := [], fileTree := "a/", specialFiles := ["license"] }

/-- A second ScanResult with a license but otherwise different contents. -/
def withLicenseScan2 : ScanResult :=
  { projectName := "b", files := [⟨["b"], "x.py"⟩], directories := [],
    fileCount := 1, dirCount := 0, extensions := [".py"], fileTree := "b/",
    specialFiles := ["readme", "license"] }

/-- A ScanResult without a license special file. -/
def noLicenseScan : ScanResult :=
  { projectName := "c", files := [], directories := [], fileCount := 0,
    dirCount := 0, extensions := [], fileTree := "c/", specialFiles := [] }

/-- Substring containment of `pat` in `s`, as a decomposition of `s`. -/
def strContains (s pat : String) : Prop := ∃ a b : String, s = a ++ pat ++ b

/-! ## Helper lemmas -/

theorem mem_insertLe {α : Type} (le : α → α → Bool) (x a : α) (l : List α) :
    a ∈ insertLe le x l ↔ a = x ∨ a ∈ l := by
  induction l with
  | nil => simp [insertLe]
  | cons y ys ih =>
    by_cases h : le x y = true
    · simp [insertLe, h]
    · simp only [insertLe, h]
      simp only [Bool.false_eq_true, if_false, List.mem_cons, ih]
      tauto

theorem mem_sortLe {α : Type} (le : α → α → Bool) (a : α) (l : List α) :
    a ∈ sortLe le l ↔ a ∈ l := by
  induction l with
  | nil => simp [sortLe]
  | cons y ys ih =>
    show a ∈ insertLe le y (sortLe le ys) ↔ _
    rw [mem_insertLe]
    simp [ih]

theorem strContains_self (s : String) : strContains s s := by
  refine ⟨"", "", ?_⟩
  have h1 : "" ++ s = s := by
    cases s with
    | mk data => rfl
  rw [h1]
  cases s with
  | mk data => show String.mk data = String.mk (data ++ []) ; rw [List.append_nil]

theorem strContains_append_right (s t pat : String) (h : strContains s pat) :
    strContains (s ++ t) pat := by
  obtain ⟨a, b, rfl⟩ := h
  exact ⟨a, b ++ t, by simp only [String.append_assoc]⟩

theorem strContains_append_left (s t pat : String) (h : strContains s pat) :
    strContains (t ++ s) pat := by
  obtain ⟨a, b, rfl⟩ := h
  exact ⟨t ++ a, b, by simp only [String.append_assoc]⟩

theorem strContains_joinSep (sep x : String) (l : List String) (h : x ∈ l) :
    strContains (joinSep sep l) x := by
  induction l with
  | nil => cases h
  | cons y ys ih =>
    cases ys with
    | nil =>
      rcases List.mem_singleton.mp h with rfl
      exact strContains_self x
    | cons z zs =>
      rcases List.mem_cons.mp h with rfl | hmem
      · show strContains (x ++ sep ++ joinSep sep (z :: zs)) x
        exact strContains_append_right _ _ _
          (strContains_append_right _ _ _ (strContains_self x))
      · show strContains (y ++ sep ++ joinSep sep (z :: zs)) x
        rw [String.append_assoc]
        exact strContains_append_left _ _ _ (strContains_append_left _ _ _ (ih hmem))

theorem strContains_trans (s y pat : String) (h1 : strContains s y)
    (h2 : strContains y pat) : strContains s pat := by
  obtain ⟨a, b, rfl⟩ := h1
  obtain ⟨c, d, rfl⟩ := h2
  refine ⟨a ++ c, d ++ b, ?_⟩
  simp only [String.append_assoc]

theorem scanTree_file_eq (maxD depth : Nat) (p : List String) (n : String) :
    scanTree maxD depth p (.file n) =
      if skipName n then ScanAcc.emptyAcc
      else ⟨[⟨p, n⟩], [], if pySuffix n ≠ "" then [pySuffix n] else []⟩ := rfl

theorem scanTree_dir_eq (maxD depth : Nat) (p : List String) (n : String) (cs : FsForest) :
    scanTree maxD depth p (.dir n cs) =
      if skipName n then ScanAcc.emptyAcc
      else ScanAcc.app ⟨[], [⟨p, n⟩], []⟩
        (if depth + 1 > maxD then ScanAcc.emptyAcc
         else scanForest maxD (depth + 1) (p ++ [n]) cs) := rfl

mutual
/-- Scanner invariant: every recorded file or directory passed the name
filter (its name is not skipped). -/
theorem scanTree_names (maxD depth : Nat) (p : List String) (t : FsTree) :
    (∀ f ∈ (scanTree maxD depth p t).files, skipName f.name = false) ∧
    (∀ d ∈ (scanTree maxD depth p t).directories, skipName d.name = false) := by
  cases t with
  | file n =>
    rw [scanTree_file_eq]
    by_cases h : skipName n = true
    · simp [h, ScanAcc.emptyAcc]
    · simp only [Bool.not_eq_true] at h
      simp [h, ScanAcc.emptyAcc]
  | dir n cs =>
    rw [scanTree_dir_eq]
    by_cases h : skipName n = true
    · simp [h, ScanAcc.emptyAcc]
    · simp only [Bool.not_eq_true] at h
      have ihcs := scanForest_names maxD (depth + 1) (p ++ [n]) cs
      by_cases hd : depth + 1 > maxD
      · simp [h, hd, ScanAcc.app, ScanAcc.emptyAcc]
      · simp only [h, Bool.false_eq_true, if_false, hd, ScanAcc.app,
          ScanAcc.emptyAcc, List.nil_append, List.singleton_append]
        constructor
        · exact fun f hf => ihcs.1 f hf
        · intro d hdm
          rcases List.mem_cons.mp hdm with rfl | hdm
          · exact h
          · exact ihcs.2 d hdm

/-- Scanner invariant over a directory's entries. -/
theorem scanForest_names (maxD depth : Nat) (p : List String) (f : FsForest) :
    (∀ x ∈ (scanForest maxD depth p f).files, skipName x.name = false) ∧
    (∀ d ∈ (scanForest maxD depth p f).directories, skipName d.name = false) := by
  cases f with
  | nil => simp [scanForest, ScanAcc.emptyAcc]
  | cons t ts =>
    have iht := scanTree_names maxD depth p t
    have ihts := scanForest_names maxD depth p ts
    simp only [scanForest, ScanAcc.app]
    constructor
    · intro x hx
      rcases List.mem_append.mp hx with hx | hx
      · exact iht.1 x hx
      · exact ihts.1 x hx
    · intro d hd
      rcases List.mem_append.mp hd with hd | hd
      · exact iht.2 d hd
      · exact ihts.2 d hd
end

mutual
/-- The files recorded below one entry are exactly the spec's bounded count,
where the fuel is the number of levels still available (`maxD - depth`). -/
theorem scanTree_count (maxD depth : Nat) (p : List String) (t : FsTree)
    (h : depth ≤ maxD) :
    (scanTree maxD depth p t).files.length = specFileCountT (maxD - depth) t := by
  cases t with
  | file n =>
    rw [scanTree_file_eq]
    by_cases hs : skipName n = true
    · simp [hs, ScanAcc.emptyAcc, specFileCountT, specExcluded]
      have : specExcluded n = true := hs
      simp [specExcluded] at this
      simp [this]
    · simp only [Bool.not_eq_true] at hs
      have hse : specExcluded n = false := hs
      simp [hs, ScanAcc.emptyAcc, specFileCountT, hse]
  | dir n cs =>
    rw [scanTree_dir_eq]
    by_cases hs : skipName n = true
    · have hse : specExcluded n = true := hs
      simp [hs, ScanAcc.emptyAcc, specFileCountT, hse]
    · simp only [Bool.not_eq_true] at hs
      have hse : specExcluded n = false := hs
      by_cases hd : depth + 1 > maxD
      · have hfuel : maxD - depth = 0 := by omega
        simp [hs, hd, ScanAcc.app, ScanAcc.emptyAcc, specFileCountT, hse, hfuel]
      · have hdep : depth + 1 ≤ maxD := by omega
        have hfuel : ((maxD - depth) == 0) = false := by
          simp only [beq_eq_false_iff_ne, ne_eq]
          omega
        have harith : maxD - depth - 1 = maxD - (depth + 1) := by omega
        have ih := scanForest_count maxD (depth + 1) (p ++ [n]) cs hdep
        simp [hs, hd, ScanAcc.app, ScanAcc.emptyAcc, specFileCountT, hse,
          hfuel, harith, ih]

/-- Forest version of `scanTree_count`. -/
theorem scanForest_count (maxD depth : Nat) (p : List String) (f : FsForest)
    (h : depth ≤ maxD) :
    (scanForest maxD depth p f).files.length = specFileCountF (maxD - depth) f := by
  cases f with
  | nil => simp [scanForest, ScanAcc.emptyAcc, specFileCountF]
  | cons t ts =>
    have iht := scanTree_count maxD depth p t h
    have ihts := scanForest_count maxD depth p ts h
    simp [scanForest, ScanAcc.app, specFileCountF, iht, ihts]
end

mutual
/-- Scanner invariant: the non-empty suffix of every recorded file was added
to the extension collection. -/
theorem scanTree_exts (maxD depth : Nat) (p : List String) (t : FsTree) :
    ∀ f ∈ (scanTree maxD depth p t).files,
      pySuffix f.name ≠ "" → pySuffix f.name ∈ (scanTree maxD depth p t).exts := by
  cases t with
  | file n =>
    rw [scanTree_file_eq]
    by_cases hs : skipName n = true
    · simp [hs, ScanAcc.emptyAcc]
    · simp only [Bool.not_eq_true] at hs
      intro f hf hne
      simp only [hs, Bool.false_eq_true, if_false, List.mem_singleton] at hf ⊢
      subst hf
      simp only [ne_eq] at hne
      simp [hne]
  | dir n cs =>
    rw [scanTree_dir_eq]
    by_cases hs : skipName n = true
    · simp [hs, ScanAcc.emptyAcc]
    · simp only [Bool.not_eq_true] at hs
      by_cases hd : depth + 1 > maxD
      · simp [hs, hd, ScanAcc.app, ScanAcc.emptyAcc]
      · have ih := scanForest_exts maxD (depth + 1) (p ++ [n]) cs
        intro f hf hne
        simp only [hs, Bool.false_eq_true, if_false, hd, ScanAcc.app,
          ScanAcc.emptyAcc, List.nil_append] at hf ⊢
        exact ih f hf hne

/-- Forest version of `scanTree_exts`. -/
theorem scanForest_exts (maxD depth : Nat) (p : List String) (fr : FsForest) :
    ∀ f ∈ (scanForest maxD depth p fr).files,
      pySuffix f.name ≠ "" → pySuffix f.name ∈ (scanForest maxD depth p fr).exts := by
  cases fr with
  | nil => simp [scanForest, ScanAcc.emptyAcc]
  | cons t ts =>
    have iht := scanTree_exts maxD depth p t
    have ihts := scanForest_exts maxD depth p ts
    intro f hf hne
    simp only [scanForest, ScanAcc.app, List.mem_append] at hf ⊢
    rcases hf with hf | hf
    · exact Or.inl (iht f hf hne)
    · exact Or.inr (ihts f hf hne)
end

theorem contains_true_iff (l : List String) (a : String) :
    l.contains a = true ↔ a ∈ l := List.elem_iff

theorem contains_false_iff (l : List String) (a : String) :
    l.contains a = false ↔ a ∉ l := by
  rw [← contains_true_iff l a]
  cases l.contains a <;> simp

theorem skipName_false_iff (n : String) :
    skipName n = false ↔
      n ∉ ignoreDirs ∧ n ∉ ignoreFiles ∧
        (startsWithB n "." = true → n ∈ allowedDotfiles) := by
  have e1 := contains_false_iff ignoreDirs n
  have e2 := contains_false_iff ignoreFiles n
  have e3 := contains_true_iff allowedDotfiles n
  unfold skipName
  cases h1 : ignoreDirs.contains n <;> cases h2 : ignoreFiles.contains n <;>
    cases h3 : startsWithB n "." <;> cases h4 : allowedDotfiles.contains n <;>
    simp_all

/-- Claim C1: for every directory tree, the scan excludes from the recorded
file and directory lists every item whose name is in the fixed ignore sets
(IGNORE_DIRS, IGNORE_FILES), and every item whose name begins with "." except
the allow-listed ".env.example" and ".editorconfig"; no such item appears in
the resulting files or directories lists. -/
theorem scan_excludes_ignored_and_hidden (base : List String) (name : String)
    (children : FsForest) :
    (∀ f ∈ (scanRun base name children).files,
      f.name ∉ ignoreDirs ∧ f.name ∉ ignoreFiles ∧
        (startsWithB f.name "." = true → f.name ∈ allowedDotfiles)) ∧
    (∀ d ∈ (scanRun base name children).directories,
      d.name ∉ ignoreDirs ∧ d.name ∉ ignoreFiles ∧
        (startsWithB d.name "." = true → d.name ∈ allowedDotfiles)) := by
  have hnames := scanForest_names 10 0 (base ++ [name]) children
  constructor
  · intro f hf
    have : skipName f.name = false := by
      apply hnames.1 f
      simpa [scanRun] using hf
    exact (skipName_false_iff f.name).mp this
  · intro d hd
    have : skipName d.name = false := by
      apply hnames.2 d
      simpa [scanRun] using hd
    exact (skipName_false_iff d.name).mp this

/-- Witness for C1 at a concrete tree: the scan of `sampleForest` records
`main.py`, and that recorded name indeed avoids both ignore sets and the
dotfile filter. -/
theorem scan_excludes_witness :
    (⟨["base", "proj"], "main.py"⟩ : FsPath).name ∉ ignoreDirs ∧
    (⟨["base", "proj"], "main.py"⟩ : FsPath).name ∉ ignoreFiles ∧
    (startsWithB (⟨["base", "proj"], "main.py"⟩ : FsPath).name "." = true →
      (⟨["base", "proj"], "main.py"⟩ : FsPath).name ∈ allowedDotfiles) :=
  (scan_excludes_ignored_and_hidden ["base"] "proj" sampleForest).1
    ⟨["base", "proj"], "main.py"⟩ (by decide)

/-- Claim C2: after a scan, the recorded `file_count` equals the number of
non-ignored, non-hidden files strictly under the root, recursively, bounded
by the default maximum recursion depth 10 (files inside ignored or hidden
directories are not reachable by the bounded traversal and are not counted). -/
theorem scan_fileCount_eq_spec (base : List String) (name : String)
    (children : FsForest) :
    (scanRun base name children).fileCount = specFileCountF 10 children := by
  have h := scanForest_count 10 0 (base ++ [name]) children (by omega)
  simpa [scanRun] using h

/-- The `lang_counts` fold of `_get_primary_language` started from an
arbitrary accumulator (proof helper). -/
def langCountsFrom (acc : List (String × Nat)) (files : List FsPath) : List (String × Nat) :=
  files.foldl
    (fun acc f =>
      match languageLookup (pySuffix f.name) with
      | some lang => bumpCount acc lang
      | none => acc)
    acc

theorem langCounts_eq_from (files : List FsPath) :
    langCounts files = langCountsFrom [] files := rfl

theorem langCountsFrom_of_none (files : List FsPath) (acc : List (String × Nat))
    (h : ∀ f ∈ files, languageLookup (pySuffix f.name) = none) :
    langCountsFrom acc files = acc := by
  induction files generalizing acc with
  | nil => rfl
  | cons f fs ih =>
    have hf := h f (List.mem_cons_self f fs)
    show langCountsFrom (match languageLookup (pySuffix f.name) with
      | some lang => bumpCount acc lang
      | none => acc) fs = acc
    rw [hf]
    exact ih acc fun g hg => h g (List.mem_cons_of_mem f hg)

theorem bumpCount_ne_nil (l : List (String × Nat)) (k : String) :
    bumpCount l k ≠ [] := by
  cases l with
  | nil => simp [bumpCount]
  | cons a rest =>
    obtain ⟨x, m⟩ := a
    by_cases h : x = k <;> simp [bumpCount, h]

theorem langCountsFrom_ne_nil (files : List FsPath) (acc : List (String × Nat))
    (h : acc ≠ []) : langCountsFrom acc files ≠ [] := by
  induction files generalizing acc with
  | nil => exact h
  | cons f fs ih =>
    show langCountsFrom (match languageLookup (pySuffix f.name) with
      | some lang => bumpCount acc lang
      | none => acc) fs ≠ []
    cases hl : languageLookup (pySuffix f.name) with
    | none => exact ih acc h
    | some lang => exact ih _ (bumpCount_ne_nil acc lang)

theorem langCounts_ne_nil (files : List FsPath)
    (h : ∃ f ∈ files, (languageLookup (pySuffix f.name)).isSome = true) :
    langCounts files ≠ [] := by
  rw [langCounts_eq_from]
  induction files with
  | nil => simp at h
  | cons g gs ih =>
    show langCountsFrom (match languageLookup (pySuffix g.name) with
      | some lang => bumpCount [] lang
      | none => []) gs ≠ []
    cases hl : languageLookup (pySuffix g.name) with
    | some lang => exact langCountsFrom_ne_nil gs _ (bumpCount_ne_nil [] lang)
    | none =>
      apply ih
      rcases h with ⟨f, hf, hs⟩
      rcases List.mem_cons.mp hf with rfl | hmem
      · rw [hl] at hs; simp at hs
      · exact ⟨f, hmem, hs⟩

theorem mem_bumpCount (l : List (String × Nat)) (k : String)
    (kv : String × Nat) (h : kv ∈ bumpCount l k) : kv.1 = k ∨ kv ∈ l := by
  induction l with
  | nil =>
    simp [bumpCount] at h
    subst h
    exact Or.inl rfl
  | cons a rest ih =>
    obtain ⟨x, m⟩ := a
    by_cases ha : x = k
    · have he : bumpCount ((x, m) :: rest) k = (x, m + 1) :: rest := by
        simp [bumpCount, ha]
      rw [he] at h
      rcases List.mem_cons.mp h with rfl | hmem
      · exact Or.inl ha
      · exact Or.inr (List.mem_cons_of_mem (x, m) hmem)
    · have he : bumpCount ((x, m) :: rest) k = (x, m) :: bumpCount rest k := by
        simp [bumpCount, ha]
      rw [he] at h
      rcases List.mem_cons.mp h with rfl | hmem
      · exact Or.inr (List.mem_cons_self (x, m) rest)
      · rcases ih hmem with hk | hmem2
        · exact Or.inl hk
        · exact Or.inr (List.mem_cons_of_mem (x, m) hmem2)

theorem mem_langCountsFrom (files : List FsPath) (acc : List (String × Nat))
    (kv : String × Nat) (h : kv ∈ langCountsFrom acc files) :
    kv ∈ acc ∨ ∃ f ∈ files, languageLookup (pySuffix f.name) = some kv.1 := by
  induction files generalizing acc with
  | nil => exact Or.inl h
  | cons f fs ih =>
    have h' : kv ∈ langCountsFrom (match languageLookup (pySuffix f.name) with
      | some lang => bumpCount acc lang
      | none => acc) fs := h
    cases hl : languageLookup (pySuffix f.name) with
    | none =>
      rw [hl] at h'
      rcases ih acc h' with hi | ⟨g, hg, hgl⟩
      · exact Or.inl hi
      · exact Or.inr ⟨g, List.mem_cons_of_mem f hg, hgl⟩
    | some lang =>
      rw [hl] at h'
      rcases ih _ h' with hi | ⟨g, hg, hgl⟩
      · rcases mem_bumpCount acc lang kv hi with hk | hmem
        · exact Or.inr ⟨f, List.mem_cons_self f fs, by rw [hl, hk]⟩
        · exact Or.inl hmem
      · exact Or.inr ⟨g, List.mem_cons_of_mem f hg, hgl⟩

theorem foldl_pick_mem (xs : List (String × Nat)) (x : String × Nat) :
    xs.foldl (fun best y => if y.2 > best.2 then y else best) x ∈ x :: xs := by
  induction xs generalizing x with
  | nil => exact List.mem_singleton.mpr rfl
  | cons y ys ih =>
    have h := ih (if y.2 > x.2 then y else x)
    rcases List.mem_cons.mp h with heq | hmem
    · rw [List.foldl_cons, heq]
      by_cases hy : y.2 > x.2 <;> simp [hy]
    · exact List.mem_cons_of_mem x (List.mem_cons_of_mem y hmem)

theorem pyMax_mem (l : List (String × Nat)) (kv : String × Nat)
    (h : pyMaxByCount l = some kv) : kv ∈ l := by
  cases l with
  | nil => cases h
  | cons x xs =>
    have : kv = xs.foldl (fun best y => if y.2 > best.2 then y else best) x := by
      have := h
      simp [pyMaxByCount] at this
      exact this.symm
    rw [this]
    exact foldl_pick_mem xs x

/-- Claim C3: for every scanner-produced ScanResult, the detector's primary
language is an element of the languages detected from the extension mapping
whenever some scanned file has a mapped extension, and is exactly "Unknown"
when no scanned file's extension is in the mapping. -/
theorem primary_language_sound (base : List String) (name : String)
    (children : FsForest) :
    (((scanRun base name children).files.any fun f =>
        (languageLookup (pySuffix f.name)).isSome) = true →
      getPrimaryLanguage (scanRun base name children).files ∈
        detectLanguages (scanRun base name children).extensions) ∧
    (((scanRun base name children).files.any fun f =>
        (languageLookup (pySuffix f.name)).isSome) = false →
      getPrimaryLanguage (scanRun base name children).files = "Unknown") := by
  constructor
  · intro hany
    obtain ⟨f0, hf0, hs0⟩ := List.any_eq_true.mp hany
    have hne := langCounts_ne_nil _ ⟨f0, hf0, hs0⟩
    cases hmax : pyMaxByCount (langCounts (scanRun base name children).files) with
    | none =>
      cases hcl : langCounts (scanRun base name children).files with
      | nil => exact absurd hcl hne
      | cons x xs => rw [hcl] at hmax; simp [pyMaxByCount] at hmax
    | some kv =>
      have hprim : getPrimaryLanguage (scanRun base name children).files = kv.1 := by
        simp [getPrimaryLanguage, hmax]
      have hkv := pyMax_mem _ _ hmax
      rw [langCounts_eq_from] at hkv
      rcases mem_langCountsFrom _ [] kv hkv with hin | ⟨g, hg, hgl⟩
      · cases hin
      · -- the witness file g has a mapped, hence non-empty, suffix
        have hsf : pySuffix g.name ≠ "" := by
          intro he
          rw [he] at hgl
          have : languageLookup "" = none := by decide
          rw [this] at hgl
          cases hgl
        have hgfiles : g ∈ (scanForest 10 0 (base ++ [name]) children).files := by
          simpa [scanRun] using hg
        have hext : pySuffix g.name ∈ (scanForest 10 0 (base ++ [name]) children).exts :=
          scanForest_exts 10 0 (base ++ [name]) children g hgfiles hsf
        have hexts : pySuffix g.name ∈ (scanRun base name children).extensions := by
          simp [scanRun, sortStrings, mem_sortLe, List.mem_dedup]
          exact hext
        rw [hprim]
        show kv.1 ∈ detectLanguages (scanRun base name children).extensions
        unfold detectLanguages
        simp only [sortStrings, mem_sortLe, List.mem_dedup, List.mem_filterMap]
        exact ⟨pySuffix g.name, hexts, hgl⟩
  · intro hany
    have hnone : ∀ f ∈ (scanRun base name children).files,
        languageLookup (pySuffix f.name) = none := by
      intro f hf
      have := List.any_eq_false.mp hany f hf
      cases hl : languageLookup (pySuffix f.name) with
      | none => rfl
      | some lang => rw [hl] at this; cases this rfl
    have : langCounts (scanRun base name children).files = [] := by
      rw [langCounts_eq_from]
      exact langCountsFrom_of_none _ [] hnone
    simp [getPrimaryLanguage, this, pyMaxByCount]

/-- Witness for C3 at a concrete tree: the sample project has a mapped
extension (.py), so its primary language is among the detected languages. -/
theorem primary_language_witness :
    getPrimaryLanguage (scanRun ["base"] "proj" sampleForest).files ∈
      detectLanguages (scanRun ["base"] "proj" sampleForest).extensions :=
  (primary_language_sound ["base"] "proj" sampleForest).1 (by decide)

/-- Counterexample for C4: with files `deploy.yaml` and `k8s-notes.txt`, the
detector reports Kubernetes although no single file satisfies both the
YAML condition and the Kubernetes-substring condition — the first file has
the YAML extension but no "k8s"/"kubernetes" substring, the second has the
substring but no YAML extension.  This refutes the claim that one and the
same file path must satisfy both conditions. -/
theorem kubernetes_two_scans_counterexample :
    "Kubernetes" ∈ detectTools [] [⟨[], "deploy.yaml"⟩, ⟨[], "k8s-notes.txt"⟩] ∧
    (([⟨[], "deploy.yaml"⟩, ⟨[], "k8s-notes.txt"⟩] : List FsPath).any fun f =>
      (containsSub f.str ".yaml" || containsSub f.str ".yml") &&
      (containsSub f.str "k8s" || containsSub f.str "kubernetes")) = false := by
  decide

/-- Claim C4 (amended): the tool list contains "Kubernetes" iff some file
path contains ".yaml" or ".yml" as a substring AND some — possibly
different — file path contains "k8s" or "kubernetes" as a substring; the two
conditions are independent scans over the file list, and the YAML test is a
substring test on the whole path rather than an extension test. -/
theorem detectTools_kubernetes_iff (cats : List String) (files : List FsPath) :
    "Kubernetes" ∈ detectTools cats files ↔
      ((files.any fun f => containsSub f.str ".yaml" || containsSub f.str ".yml") = true ∧
       (files.any fun f => containsSub f.str "k8s" || containsSub f.str "kubernetes") = true) := by
  unfold detectTools
  by_cases h1 : cats.contains "docker" = true <;>
    by_cases h2 : cats.contains "ci" = true <;>
    by_cases h3 : (files.any fun f =>
      containsSub f.str ".yaml" || containsSub f.str ".yml") = true <;>
    by_cases h4 : (files.any fun f =>
      containsSub f.str "k8s" || containsSub f.str "kubernetes") = true <;>
    by_cases h5 : cats.contains "makefile" = true <;>
    simp_all

/-- Claim C6: constructing the Enhancer in an environment without the
required credential fails immediately with the configuration error; the
constructor is a pure function of the environment and performs no network
activity. -/
theorem enhancer_missing_key (env : List (String × String))
    (h : envGet env "ANTHROPIC_API_KEY" = none) :
    initEnhancer env = Except.error apiKeyErrMsg := by
  unfold initEnhancer
  rw [h]

/-- Witness for C6: a concrete environment without the credential. -/
theorem enhancer_missing_key_witness :
    initEnhancer [("HOME", "/root"), ("PATH", "/usr/bin")] =
      Except.error apiKeyErrMsg :=
  enhancer_missing_key [("HOME", "/root"), ("PATH", "/usr/bin")] (by decide)

/-- Claim C7: if the remote call raises any exception, enhance returns
exactly the original document passed in, with no retry and no partial
application. -/
theorem enhance_error_returns_original (readmeContent msg : String) :
    enhance readmeContent (Except.error msg) = readmeContent := rfl

/-- Claim C8: the license section depends only on the presence of the
license special file — any two scan results agreeing on that flag get an
identical section, and the present/absent texts differ. -/
theorem license_depends_only_on_flag :
    (∀ s1 s2 : ScanResult,
        s1.specialFiles.contains "license" = s2.specialFiles.contains "license" →
        generateLicense s1 = generateLicense s2) ∧
    (∀ s1 s2 : ScanResult,
        s1.specialFiles.contains "license" = true →
        s2.specialFiles.contains "license" = false →
        generateLicense s1 ≠ generateLicense s2) := by
  constructor
  · intro s1 s2 h
    unfold generateLicense
    rw [h]
  · intro s1 s2 h1 h2
    unfold generateLicense
    rw [h1, h2]
    simp only [Bool.true_eq_false, Bool.false_eq_true, if_true, if_false]
    decide

/-- Witness for C8 at concrete scan results: two license-bearing results get
the same section, and it differs from a license-free result's section. -/
theorem license_flag_witness :
    generateLicense withLicenseScan = generateLicense withLicenseScan2 ∧
    generateLicense withLicenseScan ≠ generateLicense noLicenseScan :=
  ⟨license_depends_only_on_flag.1 withLicenseScan withLicenseScan2 (by decide),
   license_depends_only_on_flag.2 withLicenseScan noLicenseScan (by decide) (by decide)⟩

/-- Claim C9: no scanner-produced ScanResult ever yields "yarn" among the
detected package managers, because yarn's only marker file "yarn.lock" is in
the scanner's ignore set and so never appears among the discovered names. -/
theorem no_yarn_after_scan (base : List String) (name : String)
    (children : FsForest) :
    (detectPackageManagers (scanRun base name children).files).contains "yarn" =
      false := by
  rw [contains_false_iff]
  intro h
  obtain ⟨pm, hpm, heq⟩ := List.mem_filterMap.mp h
  have hcond : (pm.2.any fun marker =>
      (scanRun base name children).files.any fun fp => fp.name == marker) = true ∧
      pm.1 = "yarn" := by
    by_cases hc : (pm.2.any fun marker =>
        (scanRun base name children).files.any fun fp => fp.name == marker) = true
    · refine ⟨hc, ?_⟩
      rw [if_pos hc] at heq
      exact Option.some.inj heq
    · rw [if_neg hc] at heq
      cases heq
  have hpm2 : pm.2 = ["yarn.lock"] := by
    have h1 := hcond.2
    simp only [pmIndicators] at hpm
    fin_cases hpm <;> simp_all
  rw [hpm2] at hcond
  have hany : ((scanRun base name children).files.any fun fp =>
      fp.name == "yarn.lock") = true := by
    simpa using hcond.1
  obtain ⟨fp, hfp, hbeq⟩ := List.any_eq_true.mp hany
  have hname : fp.name = "yarn.lock" := by simpa using hbeq
  have hskip : skipName fp.name = false := by
    apply (scanForest_names 10 0 (base ++ [name]) children).1 fp
    simpa [scanRun] using hfp
  rw [hname] at hskip
  have htrue : skipName "yarn.lock" = true := by decide
  rw [htrue] at hskip
  cases hskip

/-- Claim C10: whenever some discovered file's stringified path contains the
substring "package.json", the framework list includes both "React" and
"Node.js", regardless of the manifest's contents (the parsing oracles only
ever add further frameworks). -/
theorem package_json_react_node (files : List FsPath) (cats : List String)
    (pkgParsed reqParsed : List String)
    (h : (files.any fun f => containsSub f.str "package.json") = true) :
    "React" ∈ detectFrameworks files cats pkgParsed reqParsed ∧
    "Node.js" ∈ detectFrameworks files cats pkgParsed reqParsed := by
  unfold detectFrameworks
  simp only [sortStrings, mem_sortLe, List.mem_dedup, List.mem_append]
  constructor
  · left; left
    apply List.mem_filterMap.mpr
    refine ⟨("React", ["package.json", "react"]), by simp [frameworkIndicators], ?_⟩
    simp [h]
  · left; left
    apply List.mem_filterMap.mpr
    refine ⟨("Node.js", ["package.json"]), by simp [frameworkIndicators], ?_⟩
    simp [h]

/-- Witness for C4 (amended): at a concrete file list satisfying both scans,
the iff yields the Kubernetes tool. -/
theorem detectTools_kubernetes_witness :
    "Kubernetes" ∈ detectTools [] [⟨[], "deploy.yaml"⟩, ⟨[], "k8s-notes.txt"⟩] :=
  (detectTools_kubernetes_iff [] [⟨[], "deploy.yaml"⟩, ⟨[], "k8s-notes.txt"⟩]).mpr
    ⟨by decide, by decide⟩

/-- Witness for C10: a lone `package.json` file triggers both frameworks. -/
theorem package_json_react_node_witness :
    "React" ∈ detectFrameworks [⟨[], "package.json"⟩] [] [] [] ∧
    "Node.js" ∈ detectFrameworks [⟨[], "package.json"⟩] [] [] [] :=
  package_json_react_node [⟨[], "package.json"⟩] [] [] [] (by decide)

theorem empty_doc_section_contains (x : String)
    (hx : x ∈ generateSections "empty" emptyScan emptyTech) (hne : x ≠ "") :
    strContains (generate "empty" emptyScan emptyTech) x :=
  strContains_joinSep "\n\n" x _ (List.mem_filter.mpr ⟨hx, by simpa using hne⟩)

set_option maxRecDepth 4096 in
theorem empty_badges_form :
    generateBadges "empty" emptyScan emptyTech =
      "<div align=\"center\">\n\n" ++
      joinSep " " [unknownBadge,
        "![GitHub stars](https://img.shields.io/github/stars/yourusername/empty?style=for-the-badge)",
        "![GitHub forks](https://img.shields.io/github/forks/yourusername/empty?style=for-the-badge)",
        "![GitHub issues](https://img.shields.io/github/issues/yourusername/empty?style=for-the-badge)"] ++
      "\n\n" ++ "" ++ "\n\n</div>" := by
  rfl

theorem empty_doc_contains_unknown_badge :
    strContains (generate "empty" emptyScan emptyTech) unknownBadge := by
  have hbadges : strContains (generateBadges "empty" emptyScan emptyTech) unknownBadge := by
    rw [empty_badges_form]
    exact strContains_append_right _ _ _ (strContains_append_right _ _ _
      (strContains_append_right _ _ _ (strContains_append_left _ _ _
        (strContains_joinSep " " unknownBadge _ (List.mem_cons_self _ _)))))
  refine strContains_trans _ _ _ ?_ hbadges
  apply empty_doc_section_contains
  · simp [generateSections]
  · decide

/-- Counterexample for C5: scanning an empty directory yields primary
language "Unknown", which is a non-empty, hence truthy, string, so the badge
guard fires and the generated document's badges section DOES contain a
language badge (rendered for "Unknown").  This refutes the claim's conjunct
that the language badge is omitted from the badges section. -/
theorem empty_dir_badge_counterexample :
    strContains (generate "empty" emptyScan emptyTech) unknownBadge :=
  empty_doc_contains_unknown_badge

/-- Claim C5 (amended): for a scan of an empty directory, file_count is 0 and
primary_language is "Unknown"; the generated document still contains the
header, footer, roadmap, contributing and license boilerplate sections and
omits the tech-stack section (its text is empty and empty sections are
filtered out of the document), but the badges section does contain a language
badge — rendered for the literal primary language "Unknown" — because
primary_language is always a non-empty string and the badge guard therefore
always fires. -/
theorem empty_dir_document :
    emptyScan.fileCount = 0 ∧
    emptyTech.primaryLanguage = "Unknown" ∧
    strContains (generate "empty" emptyScan emptyTech) (generateHeader "empty") ∧
    strContains (generate "empty" emptyScan emptyTech) generateFooter ∧
    strContains (generate "empty" emptyScan emptyTech) generateRoadmap ∧
    strContains (generate "empty" emptyScan emptyTech) generateContributing ∧
    strContains (generate "empty" emptyScan emptyTech) (generateLicense emptyScan) ∧
    generateTechStack emptyTech = "" ∧
    generateTechStack emptyTech ∉
      (generateSections "empty" emptyScan emptyTech).filter (fun sec => sec ≠ "") ∧
    strContains (generate "empty" emptyScan emptyTech) unknownBadge := by
  have htech : generateTechStack emptyTech = "" := by rfl
  refine ⟨by rfl, by rfl, ?_, ?_, ?_, ?_, ?_, htech, ?_, empty_doc_contains_unknown_badge⟩
  · exact empty_doc_section_contains _ (by simp [generateSections]) (by decide)
  · exact empty_doc_section_contains _ (by simp [generateSections]) (by decide)
  · exact empty_doc_section_contains _ (by simp [generateSections]) (by decide)
  · exact empty_doc_section_contains _ (by simp [generateSections]) (by decide)
  · exact empty_doc_section_contains _ (by simp [generateSections]) (by decide)
  · intro h
    have h2 := (List.mem_filter.mp h).2
    rw [htech] at h2
    simp at h2
